import Mathlib

/-!
Verification of the Student Attendance Management System.

Shallow embedding of the attendance data model (SQL migration:
tables attendance_sessions, attendance_records, students,
class_enrollments with their uniqueness constraints), of the
attendance submission protocol (MarkAttendance.handleSubmit), of the
attendance query flow (CheckAttendance.fetchAttendance) and of the
roster loading (MarkAttendance.loadStudents), together with theorems
about the behaviour of these operations.

Surrogate UUID keys are modelled as natural numbers, dates as natural
numbers (day indices), and each remote backend call carries an
explicit fault flag modelling a network or backend failure of that
single call.  The supabase client reports a failure as a null data
field plus an error field rather than by throwing, which the
embedding mirrors: a failed lookup returns no data and sets the
error flag, and the caller decides (or forgets) to inspect the flag.
-/

namespace AttendanceSystem

/-- Attendance status, the four-value enumeration enforced by the CHECK
constraint on attendance_records.status. -/
inductive Status where
  | PRESENT
  | ABSENT
  | LATE
  | EXCUSED
deriving DecidableEq, Repr

/-- Row of the students table (the columns the client flows read). -/
structure StudentRow where
  id : Nat
  roll_number : String
  full_name : String
deriving DecidableEq, Repr

/-- Row of the class_enrollments table. -/
structure EnrollmentRow where
  student_id : Nat
  class_id : Nat
deriving DecidableEq, Repr

/-- Row of the attendance_sessions table. -/
structure SessionRow where
  id : Nat
  class_id : Nat
  session_date : Nat
  marked_by : Nat
deriving DecidableEq, Repr

/-- Row of the attendance_records table (surrogate id omitted: no
modelled flow ever reads it). -/
structure RecordRow where
  session_id : Nat
  student_id : Nat
  status : Status
deriving DecidableEq, Repr

/-- Backend database state: the tables touched by the attendance flows,
plus a counter supplying fresh session ids (gen_random_uuid). -/
structure DB where
  students : List StudentRow
  class_enrollments : List EnrollmentRow
  attendance_sessions : List SessionRow
  attendance_records : List RecordRow
  nextId : Nat
deriving DecidableEq, Repr

/-- Client-side roster entry: the Student interface of the marking page
(id, roll_number, full_name, present flag). -/
structure MarkStudent where
  id : Nat
  roll_number : String
  full_name : String
  present : Bool
deriving DecidableEq, Repr

/-- Key of the uniqueness constraint UNIQUE(session_id, student_id) on
attendance_records. -/
def recordKey (r : RecordRow) : Nat × Nat := (r.session_id, r.student_id)

/-- Predicate selecting the session row of a given class and date. -/
def sessionFor (cid date : Nat) (s : SessionRow) : Bool :=
  s.class_id == cid && s.session_date == date

/-- The maybeSingle session lookup: on a call failure the supabase
result has null data and a non-null error; otherwise the data is the
id of the (class, date) session when one exists. -/
def lookupSession (db : DB) (cid date : Nat) (fail : Bool) : Option Nat × Bool :=
  if fail then (none, true)
  else ((db.attendance_sessions.find? (sessionFor cid date)).map (fun s => s.id), false)

/-- Deletion of all attendance records of one session; a failed call
leaves the table unchanged (the client never inspects this result). -/
def deleteSessionRecords (db : DB) (sid : Nat) (fail : Bool) : DB :=
  if fail then db
  else { db with
    attendance_records := db.attendance_records.filter fun r => !(r.session_id == sid) }

/-- Batch-internal duplicate check for the UNIQUE(session_id, student_id)
constraint: true when no two batch rows share a key. -/
def noDupKeys : List RecordRow → Bool
  | [] => true
  | r :: rest => !(rest.any fun r2 => recordKey r2 == recordKey r) && noDupKeys rest

/-- True when some batch row collides with an existing stored record on
the (session_id, student_id) key. -/
def conflicts (db : DB) (batch : List RecordRow) : Bool :=
  batch.any fun r => db.attendance_records.any fun r2 => recordKey r2 == recordKey r

/-- Bulk insert into attendance_records: the single statement is atomic,
so a call failure or any key conflict (with stored rows or inside the
batch) rejects the whole batch; success appends every row. -/
def insertRecords (db : DB) (batch : List RecordRow) (fail : Bool) : Option DB :=
  if fail || !(noDupKeys batch) || conflicts db batch then none
  else some { db with attendance_records := db.attendance_records ++ batch }

/-- Insert of a new attendance_sessions row: rejected on a call failure
or when the UNIQUE(class_id, session_date) constraint is violated;
success appends the row under a fresh id and returns that id. -/
def insertSession (db : DB) (cid date uid : Nat) (fail : Bool) : Option (DB × Nat) :=
  if fail || db.attendance_sessions.any (sessionFor cid date) then none
  else
    some ({ db with
      attendance_sessions := db.attendance_sessions ++ [⟨db.nextId, cid, date, uid⟩],
      nextId := db.nextId + 1 }, db.nextId)

/-- Fault flags of the four backend calls the submission makes. -/
structure Faults where
  failSessionLookup : Bool
  failDeleteRecords : Bool
  failSessionInsert : Bool
  failRecordsInsert : Bool
deriving DecidableEq, Repr

/-- The fault-free submission run. -/
def noFaults : Faults := ⟨false, false, false, false⟩

/-- Status written for a roster entry: PRESENT when the present flag is
true, ABSENT otherwise. -/
def statusOf (present : Bool) : Status :=
  if present then Status.PRESENT else Status.ABSENT

/-- The record batch handleSubmit builds from the roster, one row per
roster entry. -/
def mkRecords (sid : Nat) (students : List MarkStudent) : List RecordRow :=
  students.map fun s => ⟨sid, s.id, statusOf s.present⟩

/-- Outcome of a submission: the resulting backend state and whether the
success toast (true) or the error toast (false) was shown. -/
structure SubmitResult where
  db : DB
  ok : Bool
deriving DecidableEq, Repr

/-- The submission protocol, translated from MarkAttendance.handleSubmit:
look up the (class, today) session with maybeSingle, discarding the
lookup error field (the source binds sessionFetchError and never reads
it, so a failed lookup is indistinguishable from no session); in the
found branch delete the session records, discarding the delete result
(the source does not bind it); otherwise insert a new session, aborting
on its error; finally bulk-insert one record per roster entry, aborting
on its error. -/
def handleSubmit (db : DB) (cid today uid : Nat) (students : List MarkStudent)
    (f : Faults) : SubmitResult :=
  match (lookupSession db cid today f.failSessionLookup).1 with
  | some sessionId =>
      let db1 := deleteSessionRecords db sessionId f.failDeleteRecords
      match insertRecords db1 (mkRecords sessionId students) f.failRecordsInsert with
      | some db2 => ⟨db2, true⟩
      | none => ⟨db1, false⟩
  | none =>
      match insertSession db cid today uid f.failSessionInsert with
      | none => ⟨db, false⟩
      | some (db1, sessionId) =>
          match insertRecords db1 (mkRecords sessionId students) f.failRecordsInsert with
          | some db2 => ⟨db2, true⟩
          | none => ⟨db1, false⟩

/-- Client-side row of the checking page (the AttendanceRecord
interface): student id joined with roll number, name and status. -/
structure AttendanceRecord where
  student_id : Nat
  roll_number : String
  full_name : String
  status : Status
deriving DecidableEq, Repr

/-- Component state of the checking page that the query flow touches. -/
structure CheckState where
  records : List AttendanceRecord
  hasSearched : Bool
  loading : Bool
deriving DecidableEq, Repr

/-- Fault flags of the two backend calls the query flow makes. -/
structure QueryFaults where
  failSessionFetch : Bool
  failRecordsFetch : Bool
deriving DecidableEq, Repr

/-- The fault-free query run. -/
def noQueryFaults : QueryFaults := ⟨false, false⟩

/-- Fetch of a session's records joined with student identity (the
embedded students resource of the select): a call failure yields an
error, otherwise one display row per stored record of the session. -/
def fetchSessionRecords (db : DB) (sid : Nat) (fail : Bool) :
    Option (List AttendanceRecord) :=
  if fail then none
  else
    some ((db.attendance_records.filter fun r => r.session_id == sid).filterMap
      fun r => (db.students.find? fun s => s.id == r.student_id).map
        fun s => ⟨r.student_id, s.roll_number, s.full_name, r.status⟩)

/-- The query flow, translated from CheckAttendance.fetchAttendance:
set loading and hasSearched, look up the (class, date) session; a
lookup error aborts with the state otherwise unchanged; a missing
session clears the displayed records; otherwise fetch the joined
records, keeping the previously displayed records on a fetch error.
The returned flag is true exactly when a destructive error toast was
shown. -/
def fetchAttendance (db : DB) (cid date : Nat) (st : CheckState)
    (f : QueryFaults) : CheckState × Bool :=
  let st1 : CheckState := { st with loading := true, hasSearched := true }
  match lookupSession db cid date f.failSessionFetch with
  | (_, true) => ({ st1 with loading := false }, true)
  | (none, false) => ({ st1 with records := [], loading := false }, false)
  | (some sid, false) =>
      match fetchSessionRecords db sid f.failRecordsFetch with
      | none => ({ st1 with loading := false }, true)
      | some rs => ({ st1 with records := rs, loading := false }, false)

/-- Roster loading, translated from MarkAttendance.loadStudents: the
enrollments of the chosen class joined with the students table, every
resulting entry carrying the present flag initialised to true. -/
def loadStudents (db : DB) (cid : Nat) : List MarkStudent :=
  (db.class_enrollments.filter fun e => e.class_id == cid).filterMap
    fun e => (db.students.find? fun s => s.id == e.student_id).map
      fun s => ⟨s.id, s.roll_number, s.full_name, true⟩

/-- The session row a record joins with (attendance_records JOIN
attendance_sessions ON ar.session_id = asess.id). -/
def recordSession (db : DB) (r : RecordRow) : Option SessionRow :=
  db.attendance_sessions.find? fun s => s.id == r.session_id

/-- The optional class and date-range filter of the percentage function:
each null parameter matches every session. -/
def sessionMatches (classF startF endF : Option Nat) (s : SessionRow) : Bool :=
  (classF.all fun c => s.class_id == c) &&
  (startF.all fun d => decide (d ≤ s.session_date)) &&
  (endF.all fun d => decide (s.session_date ≤ d))

/-- The attendance records of one student that both queries of
calculate_attendance_percentage range over: the student's records whose
joined session passes the optional filters. -/
def matchingRecords (db : DB) (studentId : Nat) (classF startF endF : Option Nat) :
    List RecordRow :=
  db.attendance_records.filter fun r =>
    r.student_id == studentId && ((recordSession db r).any (sessionMatches classF startF endF))

/-- Rounding of a nonnegative numeric to 2 decimal places (the SQL
ROUND(x, 2), which for the nonnegative arguments arising here is
round-half-up). -/
def round2 (q : ℚ) : ℚ := ((⌊q * 100 + 1 / 2⌋ : ℤ) : ℚ) / 100

/-- Translation of the SQL function calculate_attendance_percentage:
total = COUNT(DISTINCT session_id) of the student's filtered records,
present = COUNT of the filtered records with status PRESENT; the result
is 0 when total is 0 and ROUND(present / total * 100, 2) otherwise. -/
def calculate_attendance_percentage (db : DB) (studentId : Nat)
    (classF startF endF : Option Nat) : ℚ :=
  let total := ((matchingRecords db studentId classF startF endF).map
    fun r => r.session_id).dedup.length
  let present := ((matchingRecords db studentId classF startF endF).filter
    fun r => r.status == Status.PRESENT).length
  if total = 0 then 0
  else round2 (((present : ℚ) / (total : ℚ)) * 100)

/-- Modelled from the spec: the percentage formula as the specification
words it — present-count over total-count of the records matching the
filter, times 100, rounded to 2 decimals, defined as 0 when the total
count is 0. -/
def spec_attendance_percentage (db : DB) (studentId : Nat)
    (classF startF endF : Option Nat) : ℚ :=
  let total := (matchingRecords db studentId classF startF endF).length
  let present := ((matchingRecords db studentId classF startF endF).filter
    fun r => r.status == Status.PRESENT).length
  if total = 0 then 0
  else round2 (((present : ℚ) / (total : ℚ)) * 100)

/-- UNIQUE(class_id, session_date): no two stored sessions share a
class and date. -/
def uniqueSessions (db : DB) : Prop :=
  (db.attendance_sessions.map fun s => (s.class_id, s.session_date)).Nodup

/-- UNIQUE(session_id, student_id): no two stored records share a
session and student. -/
def uniqueRecords (db : DB) : Prop :=
  (db.attendance_records.map recordKey).Nodup

/-- Freshness of the id counter with respect to the records table: no
stored record references the id the next session insert will use. -/
def recordsFresh (db : DB) : Prop :=
  ∀ r ∈ db.attendance_records, r.session_id ≠ db.nextId

instance (db : DB) : Decidable (uniqueSessions db) := by
  unfold uniqueSessions; infer_instance

instance (db : DB) : Decidable (uniqueRecords db) := by
  unfold uniqueRecords; infer_instance

instance (db : DB) : Decidable (recordsFresh db) := by
  unfold recordsFresh; infer_instance

/-- States of the sessions and records tables reachable through the
application: any seed state with no sessions and no records (the
administrative CRUD creates only students and enrollments), closed
under arbitrary submissions with arbitrary per-call faults.  The query
flow reads the backend without modifying it. -/
inductive Reachable : DB → Prop where
  | seed (students : List StudentRow) (enrollments : List EnrollmentRow)
      (nextId : Nat) : Reachable ⟨students, enrollments, [], [], nextId⟩
  | submit (db : DB) (cid today uid : Nat) (students : List MarkStudent)
      (f : Faults) : Reachable db →
      Reachable (handleSubmit db cid today uid students f).db

/-! Helper lemmas about the backend operations. -/

theorem deleteSessionRecords_sessions (db : DB) (sid : Nat) (fl : Bool) :
    (deleteSessionRecords db sid fl).attendance_sessions = db.attendance_sessions := by
  unfold deleteSessionRecords; split <;> rfl

theorem deleteSessionRecords_students (db : DB) (sid : Nat) (fl : Bool) :
    (deleteSessionRecords db sid fl).students = db.students := by
  unfold deleteSessionRecords; split <;> rfl

theorem deleteSessionRecords_nextId (db : DB) (sid : Nat) (fl : Bool) :
    (deleteSessionRecords db sid fl).nextId = db.nextId := by
  unfold deleteSessionRecords; split <;> rfl

theorem insertRecords_some (db : DB) (batch : List RecordRow) (fl : Bool) (db2 : DB)
    (h : insertRecords db batch fl = some db2) :
    fl = false ∧ noDupKeys batch = true ∧ conflicts db batch = false ∧
      db2 = { db with attendance_records := db.attendance_records ++ batch } := by
  unfold insertRecords at h
  split at h
  · exact absurd h (by simp)
  · rename_i hc
    simp only [Bool.or_eq_true, Bool.not_eq_true', not_or, Bool.not_eq_true,
      Bool.not_eq_false] at hc
    exact ⟨hc.1.1, hc.1.2, hc.2, by injection h with h2; exact h2.symm⟩

theorem insertRecords_ok (db : DB) (batch : List RecordRow)
    (hdup : noDupKeys batch = true) (hconf : conflicts db batch = false) :
    insertRecords db batch false =
      some { db with attendance_records := db.attendance_records ++ batch } := by
  unfold insertRecords
  simp [hdup, hconf]

theorem insertSession_some (db : DB) (cid date uid : Nat) (fl : Bool)
    (x : DB × Nat) (h : insertSession db cid date uid fl = some x) :
    fl = false ∧ db.attendance_sessions.any (sessionFor cid date) = false ∧
      x = ({ db with
        attendance_sessions := db.attendance_sessions ++ [⟨db.nextId, cid, date, uid⟩],
        nextId := db.nextId + 1 }, db.nextId) := by
  unfold insertSession at h
  split at h
  · exact absurd h (by simp)
  · rename_i hc
    simp only [Bool.or_eq_true, not_or] at hc
    refine ⟨by simpa using hc.1, by simpa using hc.2, by injection h with h2; exact h2.symm⟩

theorem insertSession_ok (db : DB) (cid date uid : Nat)
    (hany : db.attendance_sessions.any (sessionFor cid date) = false) :
    insertSession db cid date uid false =
      some ({ db with
        attendance_sessions := db.attendance_sessions ++ [⟨db.nextId, cid, date, uid⟩],
        nextId := db.nextId + 1 }, db.nextId) := by
  unfold insertSession
  simp [hany]

theorem noDupKeys_iff (batch : List RecordRow) :
    noDupKeys batch = true ↔ (batch.map recordKey).Nodup := by
  induction batch with
  | nil => simp [noDupKeys]
  | cons r rest ih =>
      simp only [noDupKeys, Bool.and_eq_true, Bool.not_eq_true', List.map_cons,
        List.nodup_cons, ih, List.any_eq_false, List.mem_map]
      constructor
      · rintro ⟨h1, h2⟩
        refine ⟨?_, h2⟩
        rintro ⟨r2, hr2, hk⟩
        have := h1 r2 hr2
        simp [hk] at this
      · rintro ⟨h1, h2⟩
        refine ⟨?_, h2⟩
        intro r2 hr2
        by_contra hc
        simp only [Bool.not_eq_false, beq_iff_eq] at hc
        exact h1 ⟨r2, hr2, hc⟩

theorem conflicts_eq_false (db : DB) (batch : List RecordRow) :
    conflicts db batch = false ↔
      ∀ r ∈ batch, recordKey r ∉ db.attendance_records.map recordKey := by
  unfold conflicts
  rw [List.any_eq_false]
  constructor
  · intro h r hr hmem
    have h1 := h r hr
    rw [Bool.not_eq_true, List.any_eq_false] at h1
    obtain ⟨r2, hr2, hk⟩ := List.mem_map.mp hmem
    have h2 := h1 r2 hr2
    rw [Bool.not_eq_true, beq_eq_false_iff_ne] at h2
    exact h2 hk
  · intro h r hr
    rw [Bool.not_eq_true, List.any_eq_false]
    intro r2 hr2
    rw [Bool.not_eq_true, beq_eq_false_iff_ne]
    intro hk
    exact h r hr (List.mem_map.mpr ⟨r2, hr2, hk⟩)

theorem mkRecords_map_key (sid : Nat) (roster : List MarkStudent) :
    (mkRecords sid roster).map recordKey =
      roster.map fun s => (sid, s.id) := by
  unfold mkRecords recordKey
  simp

theorem noDupKeys_mkRecords (sid : Nat) (roster : List MarkStudent)
    (h : (roster.map fun s => s.id).Nodup) :
    noDupKeys (mkRecords sid roster) = true := by
  rw [noDupKeys_iff, mkRecords_map_key]
  have : (roster.map fun s => ((sid, s.id) : Nat × Nat)) =
      (roster.map fun s => s.id).map fun n => (sid, n) := by simp
  rw [this]
  exact h.map fun a b hab => by injection hab

theorem conflicts_mkRecords_of_fresh (db : DB) (sid : Nat) (roster : List MarkStudent)
    (h : ∀ r ∈ db.attendance_records, r.session_id ≠ sid) :
    conflicts db (mkRecords sid roster) = false := by
  rw [conflicts_eq_false]
  intro r hr
  simp only [mkRecords, List.mem_map] at hr
  obtain ⟨s, _, rfl⟩ := hr
  simp only [List.mem_map, recordKey, not_exists]
  rintro r2 ⟨hr2, hk⟩
  exact h r2 hr2 (by injection hk)

theorem sessions_any_eq_false (db : DB) (cid date : Nat)
    (h : db.attendance_sessions.find? (sessionFor cid date) = none) :
    db.attendance_sessions.any (sessionFor cid date) = false := by
  rw [List.any_eq_false]
  intro s hs
  have := List.find?_eq_none.mp h s hs
  simpa using this

/-- Fault-free run of the submission when no session exists for the
class and date: one session row and the whole record batch are
appended. -/
theorem handleSubmit_fresh_eq (db : DB) (cid today uid : Nat)
    (roster : List MarkStudent)
    (hnone : db.attendance_sessions.find? (sessionFor cid today) = none)
    (hfresh : recordsFresh db)
    (hnodup : (roster.map fun s => s.id).Nodup) :
    handleSubmit db cid today uid roster noFaults =
      ⟨{ db with
          attendance_sessions := db.attendance_sessions ++ [⟨db.nextId, cid, today, uid⟩],
          attendance_records := db.attendance_records ++ mkRecords db.nextId roster,
          nextId := db.nextId + 1 }, true⟩ := by
  have hany := sessions_any_eq_false db cid today hnone
  have hdup := noDupKeys_mkRecords db.nextId roster hnodup
  unfold handleSubmit
  have hlook : (lookupSession db cid today noFaults.failSessionLookup).1 = none := by
    simp [lookupSession, noFaults, hnone]
  rw [hlook]
  simp only [noFaults]
  rw [insertSession_ok db cid today uid hany]
  have hconf : conflicts
      { db with
        attendance_sessions := db.attendance_sessions ++ [⟨db.nextId, cid, today, uid⟩],
        nextId := db.nextId + 1 } (mkRecords db.nextId roster) = false :=
    conflicts_mkRecords_of_fresh _ _ _ (fun r hr => hfresh r hr)
  simp only [insertRecords_ok _ _ hdup hconf]

/-- Fault-free run of the submission when a session already exists for
the class and date: the session table is untouched, the session's old
records are removed and the new batch is appended. -/
theorem handleSubmit_found_eq (db : DB) (cid today uid : Nat)
    (roster : List MarkStudent) (sess : SessionRow)
    (hfound : db.attendance_sessions.find? (sessionFor cid today) = some sess)
    (hnodup : (roster.map fun s => s.id).Nodup) :
    handleSubmit db cid today uid roster noFaults =
      ⟨{ db with attendance_records :=
          (db.attendance_records.filter fun r => !(r.session_id == sess.id)) ++
            mkRecords sess.id roster }, true⟩ := by
  have hdup := noDupKeys_mkRecords sess.id roster hnodup
  have hlook : (lookupSession db cid today noFaults.failSessionLookup).1 =
      some sess.id := by
    simp [lookupSession, noFaults, hfound]
  have hfresh1 : ∀ r ∈ db.attendance_records.filter
      (fun r => !(r.session_id == sess.id)), r.session_id ≠ sess.id := by
    intro r hr
    have := (List.mem_filter.mp hr).2
    rw [Bool.not_eq_true', beq_eq_false_iff_ne] at this
    exact this
  unfold handleSubmit
  rw [hlook]
  simp only [noFaults]
  have hdel : deleteSessionRecords db sess.id false =
      { db with attendance_records :=
          db.attendance_records.filter fun r => !(r.session_id == sess.id) } := by
    simp [deleteSessionRecords]
  rw [hdel]
  have hconf : conflicts
      { db with attendance_records :=
          db.attendance_records.filter fun r => !(r.session_id == sess.id) }
      (mkRecords sess.id roster) = false :=
    conflicts_mkRecords_of_fresh _ _ _ (fun r hr => hfresh1 r hr)
  simp only [insertRecords_ok _ _ hdup hconf]

/-- Case analysis of the submission's effect on the sessions table,
valid under arbitrary per-call faults: either the table is unchanged,
or no (class, today) session existed and exactly one is appended. -/
theorem handleSubmit_sessions_cases (db : DB) (cid today uid : Nat)
    (roster : List MarkStudent) (f : Faults) :
    (handleSubmit db cid today uid roster f).db.attendance_sessions =
        db.attendance_sessions ∨
      (db.attendance_sessions.any (sessionFor cid today) = false ∧
        (handleSubmit db cid today uid roster f).db.attendance_sessions =
          db.attendance_sessions ++ [⟨db.nextId, cid, today, uid⟩]) := by
  unfold handleSubmit
  rcases hl : (lookupSession db cid today f.failSessionLookup).1 with _ | sid
  · rcases hi : insertSession db cid today uid f.failSessionInsert with _ | x
    · left; simp only [hl, hi]
    · obtain ⟨-, hany, rfl⟩ := insertSession_some _ _ _ _ _ _ hi
      right
      refine ⟨hany, ?_⟩
      simp only [hl, hi]
      rcases hr : insertRecords
          { db with
            attendance_sessions :=
              db.attendance_sessions ++ [⟨db.nextId, cid, today, uid⟩],
            nextId := db.nextId + 1 }
          (mkRecords db.nextId roster) f.failRecordsInsert with _ | db2
      · simp only [hr]
      · obtain ⟨-, -, -, rfl⟩ := insertRecords_some _ _ _ _ hr
        simp only [hr]
  · left
    simp only [hl]
    rcases hr : insertRecords (deleteSessionRecords db sid f.failDeleteRecords)
        (mkRecords sid roster) f.failRecordsInsert with _ | db2
    · simp only [hr]
      exact deleteSessionRecords_sessions db sid f.failDeleteRecords
    · obtain ⟨-, -, -, rfl⟩ := insertRecords_some _ _ _ _ hr
      simp only [hr]
      exact deleteSessionRecords_sessions db sid f.failDeleteRecords

theorem handleSubmit_uniqueSessions (db : DB) (cid today uid : Nat)
    (roster : List MarkStudent) (f : Faults) (h : uniqueSessions db) :
    uniqueSessions (handleSubmit db cid today uid roster f).db := by
  rcases handleSubmit_sessions_cases db cid today uid roster f with hc | ⟨hany, hc⟩
  · unfold uniqueSessions
    rw [hc]
    exact h
  · unfold uniqueSessions at h ⊢
    rw [hc, List.map_append, List.nodup_append]
    refine ⟨h, List.nodup_singleton _, ?_⟩
    intro a ha hb
    obtain ⟨s, hs, rfl⟩ := List.mem_map.mp ha
    simp only [List.map_cons, List.map_nil, List.mem_cons, List.not_mem_nil,
      or_false] at hb
    have hfalse := List.any_eq_false.mp hany s hs
    apply hfalse
    unfold sessionFor
    rw [Bool.and_eq_true, beq_iff_eq, beq_iff_eq]
    exact ⟨congrArg Prod.fst hb, congrArg Prod.snd hb⟩

theorem reachable_uniqueSessions (db : DB) (h : Reachable db) :
    uniqueSessions db := by
  induction h with
  | seed students enrollments nextId =>
      unfold uniqueSessions
      simp
  | submit db cid today uid students f hdb ih =>
      exact handleSubmit_uniqueSessions db cid today uid students f ih

theorem insertRecords_uniqueRecords (db db2 : DB) (batch : List RecordRow)
    (fl : Bool) (h : uniqueRecords db) (hr : insertRecords db batch fl = some db2) :
    uniqueRecords db2 := by
  obtain ⟨-, hdup, hconf, rfl⟩ := insertRecords_some _ _ _ _ hr
  unfold uniqueRecords at h ⊢
  rw [List.map_append, List.nodup_append]
  refine ⟨h, (noDupKeys_iff _).mp hdup, ?_⟩
  intro a ha hb
  obtain ⟨r, hrb, rfl⟩ := List.mem_map.mp hb
  exact (conflicts_eq_false db batch).mp hconf r hrb ha

theorem deleteSessionRecords_uniqueRecords (db : DB) (sid : Nat) (fl : Bool)
    (h : uniqueRecords db) : uniqueRecords (deleteSessionRecords db sid fl) := by
  unfold deleteSessionRecords
  split
  · exact h
  · unfold uniqueRecords at h ⊢
    exact List.Nodup.sublist (List.Sublist.map _ (List.filter_sublist _)) h

theorem handleSubmit_uniqueRecords (db : DB) (cid today uid : Nat)
    (roster : List MarkStudent) (f : Faults) (h : uniqueRecords db) :
    uniqueRecords (handleSubmit db cid today uid roster f).db := by
  unfold handleSubmit
  rcases hl : (lookupSession db cid today f.failSessionLookup).1 with _ | sid
  · rcases hi : insertSession db cid today uid f.failSessionInsert with _ | x
    · simp only [hl, hi]
      exact h
    · obtain ⟨-, hany, rfl⟩ := insertSession_some _ _ _ _ _ _ hi
      simp only [hl, hi]
      rcases hr : insertRecords
          { db with
            attendance_sessions :=
              db.attendance_sessions ++ [⟨db.nextId, cid, today, uid⟩],
            nextId := db.nextId + 1 }
          (mkRecords db.nextId roster) f.failRecordsInsert with _ | db2
      · simp only [hr]
        exact h
      · simp only [hr]
        exact insertRecords_uniqueRecords
          { db with
            attendance_sessions :=
              db.attendance_sessions ++ [⟨db.nextId, cid, today, uid⟩],
            nextId := db.nextId + 1 } db2 _ _ h hr
  · simp only [hl]
    have h1 := deleteSessionRecords_uniqueRecords db sid f.failDeleteRecords h
    rcases hr : insertRecords (deleteSessionRecords db sid f.failDeleteRecords)
        (mkRecords sid roster) f.failRecordsInsert with _ | db2
    · simp only [hr]
      exact h1
    · simp only [hr]
      exact insertRecords_uniqueRecords _ _ _ _ h1 hr

theorem reachable_uniqueRecords (db : DB) (h : Reachable db) :
    uniqueRecords db := by
  induction h with
  | seed students enrollments nextId =>
      unfold uniqueRecords
      simp
  | submit db cid today uid students f hdb ih =>
      exact handleSubmit_uniqueRecords db cid today uid students f ih

theorem mkRecords_filter_self (sid : Nat) (roster : List MarkStudent) :
    (mkRecords sid roster).filter (fun r => r.session_id == sid) =
      mkRecords sid roster := by
  apply List.filter_eq_self.mpr
  intro r hr
  obtain ⟨s, -, rfl⟩ := List.mem_map.mp hr
  simp

theorem mkRecords_filterNot (sid : Nat) (roster : List MarkStudent) :
    (mkRecords sid roster).filter (fun r => !(r.session_id == sid)) = [] := by
  apply List.filter_eq_nil_iff.mpr
  intro r hr
  obtain ⟨s, -, rfl⟩ := List.mem_map.mp hr
  simp

theorem mkRecords_map_student (sid : Nat) (roster : List MarkStudent) :
    (mkRecords sid roster).map (fun r => r.student_id) =
      roster.map fun s => s.id := by
  unfold mkRecords
  simp

/-- Claim C1: submitting attendance for a class and date with no prior
session creates exactly one session row for that pair and exactly one
record per roster entry; each record's status is PRESENT when the
entry's presence flag is true and ABSENT otherwise, and no other
status is ever produced by this flow. -/
theorem submit_fresh_creates (db : DB) (cid today uid : Nat)
    (roster : List MarkStudent)
    (hnone : db.attendance_sessions.find? (sessionFor cid today) = none)
    (hfresh : recordsFresh db)
    (hnodup : (roster.map fun s => s.id).Nodup) :
    (handleSubmit db cid today uid roster noFaults).ok = true ∧
    ((handleSubmit db cid today uid roster noFaults).db.attendance_sessions.filter
        (sessionFor cid today)).length = 1 ∧
    (handleSubmit db cid today uid roster noFaults).db.attendance_records.filter
        (fun r => r.session_id == db.nextId) = mkRecords db.nextId roster ∧
    (∀ s ∈ roster,
      (⟨db.nextId, s.id, if s.present then Status.PRESENT else Status.ABSENT⟩ :
          RecordRow) ∈
        (handleSubmit db cid today uid roster noFaults).db.attendance_records) ∧
    ∀ r ∈ (handleSubmit db cid today uid roster noFaults).db.attendance_records.filter
        (fun r => r.session_id == db.nextId),
      r.status = Status.PRESENT ∨ r.status = Status.ABSENT := by
  have hrecfilter : db.attendance_records.filter
      (fun r => r.session_id == db.nextId) = [] := by
    apply List.filter_eq_nil_iff.mpr
    intro r hr
    simpa using hfresh r hr
  have hsessfilter : db.attendance_sessions.filter (sessionFor cid today) = [] := by
    apply List.filter_eq_nil_iff.mpr
    intro s hs
    simpa using List.find?_eq_none.mp hnone s hs
  rw [handleSubmit_fresh_eq db cid today uid roster hnone hfresh hnodup]
  refine ⟨rfl, ?_, ?_, ?_, ?_⟩
  · show ((db.attendance_sessions ++
        [(⟨db.nextId, cid, today, uid⟩ : SessionRow)]).filter
          (sessionFor cid today)).length = 1
    rw [List.filter_append, hsessfilter]
    simp [sessionFor]
  · show (db.attendance_records ++ mkRecords db.nextId roster).filter
        (fun r => r.session_id == db.nextId) = mkRecords db.nextId roster
    rw [List.filter_append, hrecfilter, mkRecords_filter_self]
    rfl
  · intro s hs
    show _ ∈ db.attendance_records ++ mkRecords db.nextId roster
    refine List.mem_append_right _ ?_
    unfold mkRecords statusOf
    exact List.mem_map.mpr ⟨s, hs, rfl⟩
  · intro r hr
    have hr2 : r ∈ (db.attendance_records ++ mkRecords db.nextId roster).filter
        (fun r => r.session_id == db.nextId) := hr
    rw [List.filter_append, hrecfilter, mkRecords_filter_self,
      List.nil_append] at hr2
    obtain ⟨s, -, rfl⟩ := List.mem_map.mp hr2
    cases hp : s.present <;> simp [statusOf, hp]

/-- Claim C2: resubmitting for a class and date that already has a
session fully replaces the session's record set with one record per
entry of the new roster; students absent from the new roster keep no
record in the session, no student has two records in it, and re-running
the submission with the same roster leaves the stored state unchanged. -/
theorem submit_resubmit_replaces (db : DB) (cid today uid : Nat)
    (roster : List MarkStudent) (sess : SessionRow)
    (hfound : db.attendance_sessions.find? (sessionFor cid today) = some sess)
    (hnodup : (roster.map fun s => s.id).Nodup) :
    (handleSubmit db cid today uid roster noFaults).ok = true ∧
    (handleSubmit db cid today uid roster noFaults).db.attendance_records.filter
        (fun r => r.session_id == sess.id) = mkRecords sess.id roster ∧
    (∀ r ∈ (handleSubmit db cid today uid roster noFaults).db.attendance_records,
      r.session_id = sess.id → r.student_id ∈ roster.map fun s => s.id) ∧
    (((handleSubmit db cid today uid roster noFaults).db.attendance_records.filter
        (fun r => r.session_id == sess.id)).map fun r => r.student_id).Nodup ∧
    handleSubmit (handleSubmit db cid today uid roster noFaults).db cid today uid
        roster noFaults = handleSubmit db cid today uid roster noFaults := by
  have hold : (db.attendance_records.filter
      (fun r => !(r.session_id == sess.id))).filter
      (fun r => r.session_id == sess.id) = [] := by
    apply List.filter_eq_nil_iff.mpr
    intro r hr
    have := (List.mem_filter.mp hr).2
    simpa using this
  have hkeep : (db.attendance_records.filter
      (fun r => !(r.session_id == sess.id))).filter
      (fun r => !(r.session_id == sess.id)) =
      db.attendance_records.filter (fun r => !(r.session_id == sess.id)) := by
    apply List.filter_eq_self.mpr
    intro r hr
    exact (List.mem_filter.mp hr).2
  have hfiltereq : ((db.attendance_records.filter
        (fun r => !(r.session_id == sess.id))) ++ mkRecords sess.id roster).filter
        (fun r => r.session_id == sess.id) = mkRecords sess.id roster := by
    rw [List.filter_append, hold, mkRecords_filter_self, List.nil_append]
  rw [handleSubmit_found_eq db cid today uid roster sess hfound hnodup]
  refine ⟨rfl, ?_, ?_, ?_, ?_⟩
  · exact hfiltereq
  · intro r hr hsid
    rcases List.mem_append.mp hr with hr1 | hr2
    · have := (List.mem_filter.mp hr1).2
      rw [Bool.not_eq_true', beq_eq_false_iff_ne] at this
      exact absurd hsid this
    · obtain ⟨s, hs, rfl⟩ := List.mem_map.mp hr2
      exact List.mem_map.mpr ⟨s, hs, rfl⟩
  · have h6 : ((((db.attendance_records.filter
        (fun r => !(r.session_id == sess.id))) ++ mkRecords sess.id roster).filter
        (fun r => r.session_id == sess.id)).map fun r => r.student_id).Nodup := by
      rw [hfiltereq, mkRecords_map_student]
      exact hnodup
    exact h6
  · have hfound2 : ({ db with attendance_records :=
        ((db.attendance_records.filter fun r => !(r.session_id == sess.id)) ++
          mkRecords sess.id roster) } : DB).attendance_sessions.find?
        (sessionFor cid today) = some sess := hfound
    have h7 := handleSubmit_found_eq
      { db with attendance_records :=
        ((db.attendance_records.filter fun r => !(r.session_id == sess.id)) ++
          mkRecords sess.id roster) }
      cid today uid roster sess hfound2 hnodup
    have hrec : ((db.attendance_records.filter
          (fun r => !(r.session_id == sess.id))) ++ mkRecords sess.id roster).filter
          (fun r => !(r.session_id == sess.id)) =
        db.attendance_records.filter (fun r => !(r.session_id == sess.id)) := by
      rw [List.filter_append, hkeep, mkRecords_filterNot, List.append_nil]
    show handleSubmit
        { db with attendance_records :=
          ((db.attendance_records.filter fun r => !(r.session_id == sess.id)) ++
            mkRecords sess.id roster) } cid today uid roster noFaults =
      (⟨{ db with attendance_records :=
          ((db.attendance_records.filter fun r => !(r.session_id == sess.id)) ++
            mkRecords sess.id roster) }, true⟩ : SubmitResult)
    rw [h7]
    simp [hrec]

/-- Claim C3: querying a class and date with no session yields an empty
displayed record set without signalling an error, and the resulting
page state is identical to the one produced by querying a database
whose (class, date) session exists but has zero records. -/
theorem query_no_session_empty (db dbZ : DB) (cid date : Nat) (st : CheckState)
    (sess : SessionRow)
    (hnone : db.attendance_sessions.find? (sessionFor cid date) = none)
    (hfound : dbZ.attendance_sessions.find? (sessionFor cid date) = some sess)
    (hzero : dbZ.attendance_records.filter (fun r => r.session_id == sess.id) = []) :
    fetchAttendance db cid date st noQueryFaults =
      ({ st with records := [], hasSearched := true, loading := false }, false) ∧
    fetchAttendance dbZ cid date st noQueryFaults =
      fetchAttendance db cid date st noQueryFaults := by
  have h1 : fetchAttendance db cid date st noQueryFaults =
      ({ st with records := [], hasSearched := true, loading := false }, false) := by
    unfold fetchAttendance lookupSession
    simp [noQueryFaults, hnone]
  refine ⟨h1, ?_⟩
  rw [h1]
  unfold fetchAttendance lookupSession fetchSessionRecords
  simp [noQueryFaults, hfound, hzero]

/-- Claim C8: a freshly loaded roster for a chosen class initialises the
presence flag of every enrolled student to true. -/
theorem loadStudents_all_present (db : DB) (cid : Nat) (m : MarkStudent)
    (hm : m ∈ loadStudents db cid) : m.present = true := by
  unfold loadStudents at hm
  obtain ⟨e, -, he⟩ := List.mem_filterMap.mp hm
  obtain ⟨s, -, rfl⟩ := Option.map_eq_some'.mp he
  rfl

/-- Claim C9: when the session lookup succeeds but the records fetch
fails, the displayed record set is left unchanged and only the loading
flag is cleared (a destructive error toast is shown). -/
theorem fetch_records_error_keeps (db : DB) (cid date : Nat) (st : CheckState)
    (sess : SessionRow)
    (hfound : db.attendance_sessions.find? (sessionFor cid date) = some sess) :
    fetchAttendance db cid date st ⟨false, true⟩ =
      ({ st with hasSearched := true, loading := false }, true) := by
  unfold fetchAttendance lookupSession fetchSessionRecords
  simp [hfound]

theorem insertRecords_fail (db : DB) (b : List RecordRow) :
    insertRecords db b true = none := by
  unfold insertRecords
  simp

theorem handleSubmit_sessionInsert_fail (db : DB) (cid today uid : Nat)
    (roster : List MarkStudent) (fd fr : Bool)
    (hnone : db.attendance_sessions.find? (sessionFor cid today) = none) :
    handleSubmit db cid today uid roster ⟨false, fd, true, fr⟩ = ⟨db, false⟩ := by
  unfold handleSubmit
  have hlook : (lookupSession db cid today
      ((⟨false, fd, true, fr⟩ : Faults)).failSessionLookup).1 = none := by
    simp [lookupSession, hnone]
  have hins : insertSession db cid today uid
      ((⟨false, fd, true, fr⟩ : Faults)).failSessionInsert = none := by
    show insertSession db cid today uid true = none
    unfold insertSession
    simp
  simp only [hlook, hins]

theorem handleSubmit_found_recordsFail (db : DB) (cid today uid : Nat)
    (roster : List MarkStudent) (sess : SessionRow) (fs : Bool)
    (hfound : db.attendance_sessions.find? (sessionFor cid today) = some sess) :
    handleSubmit db cid today uid roster ⟨false, false, fs, true⟩ =
      ⟨deleteSessionRecords db sess.id false, false⟩ := by
  unfold handleSubmit
  have hlook : (lookupSession db cid today
      ((⟨false, false, fs, true⟩ : Faults)).failSessionLookup).1 = some sess.id := by
    simp [lookupSession, hfound]
  simp only [hlook, insertRecords_fail]

theorem handleSubmit_fresh_recordsFail (db : DB) (cid today uid : Nat)
    (roster : List MarkStudent)
    (hnone : db.attendance_sessions.find? (sessionFor cid today) = none) :
    handleSubmit db cid today uid roster ⟨false, false, false, true⟩ =
      ⟨{ db with
          attendance_sessions := db.attendance_sessions ++ [⟨db.nextId, cid, today, uid⟩],
          nextId := db.nextId + 1 }, false⟩ := by
  have hany := sessions_any_eq_false db cid today hnone
  unfold handleSubmit
  have hlook : (lookupSession db cid today
      ((⟨false, false, false, true⟩ : Faults)).failSessionLookup).1 = none := by
    simp [lookupSession, hnone]
  simp only [hlook, insertSession_ok db cid today uid hany, insertRecords_fail]

theorem handleSubmit_lookupFail_eq (db : DB) (cid today uid : Nat)
    (roster : List MarkStudent) (fd fs fr : Bool)
    (hnone : db.attendance_sessions.find? (sessionFor cid today) = none) :
    handleSubmit db cid today uid roster ⟨true, fd, fs, fr⟩ =
      handleSubmit db cid today uid roster ⟨false, fd, fs, fr⟩ := by
  unfold handleSubmit
  have h1 : (lookupSession db cid today
      ((⟨true, fd, fs, fr⟩ : Faults)).failSessionLookup).1 = none := by
    simp [lookupSession]
  have h2 : (lookupSession db cid today
      ((⟨false, fd, fs, fr⟩ : Faults)).failSessionLookup).1 = none := by
    simp [lookupSession, hnone]
  simp only [h1, h2]

/-- Claim C4, counterexample: with the step-1 session lookup failing on
a database holding no (class 1, date 7) session, the submission still
writes a session and a record (the lookup error is never inspected);
and with the step-2 record deletion failing on a database whose
session 5 holds a stale record for student 20, the new record for
student 10 is still inserted and the flow reports success. -/
theorem submit_error_swallow_cex :
    ((handleSubmit ⟨[], [], [], [], 0⟩ 1 7 9 [⟨10, "r10", "A", true⟩]
        ⟨true, false, false, false⟩).db ≠ (⟨[], [], [], [], 0⟩ : DB) ∧
      (handleSubmit ⟨[], [], [], [], 0⟩ 1 7 9 [⟨10, "r10", "A", true⟩]
        ⟨true, false, false, false⟩).db.attendance_sessions.length = 1 ∧
      (handleSubmit ⟨[], [], [], [], 0⟩ 1 7 9 [⟨10, "r10", "A", true⟩]
        ⟨true, false, false, false⟩).db.attendance_records.length = 1) ∧
    ((⟨5, 10, Status.PRESENT⟩ : RecordRow) ∈
        (handleSubmit ⟨[], [], [⟨5, 1, 7, 9⟩], [⟨5, 20, Status.ABSENT⟩], 6⟩ 1 7 9
          [⟨10, "r10", "A", true⟩] ⟨false, true, false, false⟩).db.attendance_records ∧
      (handleSubmit ⟨[], [], [⟨5, 1, 7, 9⟩], [⟨5, 20, Status.ABSENT⟩], 6⟩ 1 7 9
        [⟨10, "r10", "A", true⟩] ⟨false, true, false, false⟩).ok = true) := by
  decide

/-- Claim C4 (amended): only the session-insert and records-insert call
failures abort the submission, and aborting does not undo earlier
steps — a session-insert failure leaves the database unchanged, a
records-insert failure inserts no records but keeps the prior deletion
or session creation; a session-lookup failure is silently treated as
no session found, and a record-deletion failure is silently ignored. -/
theorem submit_abort_behaviour :
    (∀ (db : DB) (cid today uid : Nat) (roster : List MarkStudent) (fd fr : Bool),
      db.attendance_sessions.find? (sessionFor cid today) = none →
      handleSubmit db cid today uid roster ⟨false, fd, true, fr⟩ = ⟨db, false⟩) ∧
    (∀ (db : DB) (cid today uid : Nat) (roster : List MarkStudent)
        (sess : SessionRow) (fs : Bool),
      db.attendance_sessions.find? (sessionFor cid today) = some sess →
      handleSubmit db cid today uid roster ⟨false, false, fs, true⟩ =
        ⟨deleteSessionRecords db sess.id false, false⟩) ∧
    (∀ (db : DB) (cid today uid : Nat) (roster : List MarkStudent),
      db.attendance_sessions.find? (sessionFor cid today) = none →
      handleSubmit db cid today uid roster ⟨false, false, false, true⟩ =
        ⟨{ db with
            attendance_sessions := db.attendance_sessions ++ [⟨db.nextId, cid, today, uid⟩],
            nextId := db.nextId + 1 }, false⟩) ∧
    (∀ (db : DB) (cid today uid : Nat) (roster : List MarkStudent) (fd fs fr : Bool),
      db.attendance_sessions.find? (sessionFor cid today) = none →
      handleSubmit db cid today uid roster ⟨true, fd, fs, fr⟩ =
        handleSubmit db cid today uid roster ⟨false, fd, fs, fr⟩) :=
  ⟨fun db cid today uid roster fd fr h =>
      handleSubmit_sessionInsert_fail db cid today uid roster fd fr h,
    fun db cid today uid roster sess fs h =>
      handleSubmit_found_recordsFail db cid today uid roster sess fs h,
    fun db cid today uid roster h =>
      handleSubmit_fresh_recordsFail db cid today uid roster h,
    fun db cid today uid roster fd fs fr h =>
      handleSubmit_lookupFail_eq db cid today uid roster fd fs fr h⟩

/-- Claim C5: every state reachable by the submission and query
operations has at most one session per (class, date) pair, and a
submission either leaves the sessions table unchanged (reusing the
existing session) or appends exactly one session for a pair that had
none. -/
theorem at_most_one_session_per_class_date :
    (∀ db, Reachable db → uniqueSessions db) ∧
    (∀ (db : DB) (cid today uid : Nat) (roster : List MarkStudent) (f : Faults),
      (handleSubmit db cid today uid roster f).db.attendance_sessions =
          db.attendance_sessions ∨
        (db.attendance_sessions.any (sessionFor cid today) = false ∧
          (handleSubmit db cid today uid roster f).db.attendance_sessions =
            db.attendance_sessions ++ [⟨db.nextId, cid, today, uid⟩])) :=
  ⟨reachable_uniqueSessions, handleSubmit_sessions_cases⟩

/-- Claim C6: the backend rejects any batch attempting to create a
second record for an existing (session, student) pair, and every
reachable state holds at most one record per (session, student). -/
theorem record_unique_per_session_student :
    (∀ (db : DB) (batch : List RecordRow) (fl : Bool) (r : RecordRow),
      r ∈ batch → recordKey r ∈ db.attendance_records.map recordKey →
      insertRecords db batch fl = none) ∧
    (∀ db, Reachable db → uniqueRecords db) := by
  constructor
  · intro db batch fl r hr hkey
    have hconf : conflicts db batch = true := by
      unfold conflicts
      rw [List.any_eq_true]
      refine ⟨r, hr, ?_⟩
      rw [List.any_eq_true]
      obtain ⟨r2, hr2, hk⟩ := List.mem_map.mp hkey
      exact ⟨r2, hr2, by simp [hk]⟩
    unfold insertRecords
    simp [hconf]
  · exact reachable_uniqueRecords

theorem matchingRecords_student (db : DB) (studentId : Nat)
    (classF startF endF : Option Nat) :
    ∀ r ∈ matchingRecords db studentId classF startF endF,
      r.student_id = studentId := by
  intro r hr
  have h := (List.mem_filter.mp hr).2
  rw [Bool.and_eq_true] at h
  exact beq_iff_eq.mp h.1

theorem nodup_session_of_nodup_keys (l : List RecordRow) (sid : Nat)
    (hk : (l.map recordKey).Nodup) (hs : ∀ r ∈ l, r.student_id = sid) :
    (l.map fun r => r.session_id).Nodup := by
  induction l with
  | nil => simp
  | cons a t ih =>
      rw [List.map_cons, List.nodup_cons] at hk ⊢
      refine ⟨?_, ih hk.2 (fun r hr => hs r (List.mem_cons_of_mem a hr))⟩
      intro hmem
      obtain ⟨r, hrt, hre⟩ := List.mem_map.mp hmem
      apply hk.1
      refine List.mem_map.mpr ⟨r, hrt, ?_⟩
      unfold recordKey
      rw [hre, hs r (List.mem_cons_of_mem a hrt), hs a (List.mem_cons_self a t)]

/-- Claim C7: under the record-uniqueness constraint, the backend
percentage function computes present-count over total-count times 100
rounded to 2 decimals on the records matching the optional filters,
and 0 when the total count is 0 — i.e. it coincides with the formula
as the specification words it. -/
theorem percentage_matches_spec (db : DB) (studentId : Nat)
    (classF startF endF : Option Nat) (h : uniqueRecords db) :
    calculate_attendance_percentage db studentId classF startF endF =
      spec_attendance_percentage db studentId classF startF endF := by
  have hsub : ((matchingRecords db studentId classF startF endF).map
      recordKey).Nodup :=
    List.Nodup.sublist (List.Sublist.map _ (List.filter_sublist _)) h
  have hn := nodup_session_of_nodup_keys _ studentId hsub
    (matchingRecords_student db studentId classF startF endF)
  unfold calculate_attendance_percentage spec_attendance_percentage
  rw [List.dedup_eq_self.mpr hn, List.length_map]

/-! Concrete fixtures for the witness theorems. -/

/-- Empty backend state. -/
def dbEmpty : DB := ⟨[], [], [], [], 0⟩

/-- Two-student roster, one present and one absent. -/
def rosterW : List MarkStudent :=
  [⟨10, "STU001", "John Doe", true⟩, ⟨11, "STU002", "Mary Smith", false⟩]

/-- State holding a session 5 for (class 1, date 7) with one stale
record for student 20. -/
def dbSess : DB := ⟨[], [], [⟨5, 1, 7, 9⟩], [⟨5, 20, Status.ABSENT⟩], 6⟩

/-- State holding a session 5 for (class 1, date 7) with zero records. -/
def dbZeroRec : DB := ⟨[], [], [⟨5, 1, 7, 9⟩], [], 6⟩

/-- State with one student enrolled in class 1. -/
def dbStud : DB := ⟨[⟨10, "STU001", "John Doe"⟩], [⟨10, 1⟩], [], [], 0⟩

/-- State where student 10 attended two of three sessions of class 1. -/
def dbPerc : DB :=
  ⟨[], [], [⟨0, 1, 1, 9⟩, ⟨1, 1, 2, 9⟩, ⟨2, 1, 3, 9⟩],
    [⟨0, 10, Status.PRESENT⟩, ⟨1, 10, Status.PRESENT⟩, ⟨2, 10, Status.ABSENT⟩], 3⟩

/-- Page state with one previously displayed record. -/
def stW : CheckState := ⟨[⟨1, "STU001", "John Doe", Status.PRESENT⟩], false, false⟩

/-- Witness for claim C1 at the empty database and the two-student
roster. -/
theorem submit_fresh_creates_witness :
    (dbEmpty.attendance_sessions.find? (sessionFor 1 7) = none) ∧
    recordsFresh dbEmpty ∧
    ((rosterW.map fun s => s.id).Nodup) ∧
    ((handleSubmit dbEmpty 1 7 9 rosterW noFaults).ok = true ∧
      ((handleSubmit dbEmpty 1 7 9 rosterW noFaults).db.attendance_sessions.filter
          (sessionFor 1 7)).length = 1 ∧
      (handleSubmit dbEmpty 1 7 9 rosterW noFaults).db.attendance_records.filter
          (fun r => r.session_id == dbEmpty.nextId) =
        mkRecords dbEmpty.nextId rosterW ∧
      (∀ s ∈ rosterW,
        (⟨dbEmpty.nextId, s.id,
            if s.present then Status.PRESENT else Status.ABSENT⟩ : RecordRow) ∈
          (handleSubmit dbEmpty 1 7 9 rosterW noFaults).db.attendance_records) ∧
      ∀ r ∈ (handleSubmit dbEmpty 1 7 9 rosterW
          noFaults).db.attendance_records.filter
          (fun r => r.session_id == dbEmpty.nextId),
        r.status = Status.PRESENT ∨ r.status = Status.ABSENT) :=
  ⟨by decide, by decide, by decide,
    submit_fresh_creates dbEmpty 1 7 9 rosterW (by decide) (by decide) (by decide)⟩

/-- Witness for claim C2 at a database already holding session 5 for
(class 1, date 7) with a stale record. -/
theorem submit_resubmit_witness :
    (dbSess.attendance_sessions.find? (sessionFor 1 7) =
      some (⟨5, 1, 7, 9⟩ : SessionRow)) ∧
    ((rosterW.map fun s => s.id).Nodup) ∧
    ((handleSubmit dbSess 1 7 9 rosterW noFaults).ok = true ∧
      (handleSubmit dbSess 1 7 9 rosterW noFaults).db.attendance_records.filter
          (fun r => r.session_id == (5 : Nat)) = mkRecords 5 rosterW ∧
      (∀ r ∈ (handleSubmit dbSess 1 7 9 rosterW noFaults).db.attendance_records,
        r.session_id = 5 → r.student_id ∈ rosterW.map fun s => s.id) ∧
      (((handleSubmit dbSess 1 7 9 rosterW noFaults).db.attendance_records.filter
          (fun r => r.session_id == (5 : Nat))).map fun r => r.student_id).Nodup ∧
      handleSubmit (handleSubmit dbSess 1 7 9 rosterW noFaults).db 1 7 9 rosterW
          noFaults = handleSubmit dbSess 1 7 9 rosterW noFaults) :=
  ⟨by decide, by decide,
    submit_resubmit_replaces dbSess 1 7 9 rosterW ⟨5, 1, 7, 9⟩ (by decide)
      (by decide)⟩

/-- Witness for claim C3: the empty database versus a database whose
(class 1, date 7) session exists with zero records. -/
theorem query_no_session_empty_witness :
    (dbEmpty.attendance_sessions.find? (sessionFor 1 7) = none) ∧
    (dbZeroRec.attendance_sessions.find? (sessionFor 1 7) =
      some (⟨5, 1, 7, 9⟩ : SessionRow)) ∧
    (dbZeroRec.attendance_records.filter (fun r => r.session_id == (5 : Nat)) = []) ∧
    (fetchAttendance dbEmpty 1 7 stW noQueryFaults =
        ({ stW with records := [], hasSearched := true, loading := false }, false) ∧
      fetchAttendance dbZeroRec 1 7 stW noQueryFaults =
        fetchAttendance dbEmpty 1 7 stW noQueryFaults) :=
  ⟨by decide, by decide, by decide,
    query_no_session_empty dbEmpty dbZeroRec 1 7 stW ⟨5, 1, 7, 9⟩ (by decide)
      (by decide) (by decide)⟩

/-- Witness for claim C4 (amended), instantiating the session-insert
failure case at the empty database. -/
theorem submit_abort_behaviour_witness :
    (dbEmpty.attendance_sessions.find? (sessionFor 1 7) = none) ∧
    handleSubmit dbEmpty 1 7 9 rosterW ⟨false, false, true, false⟩ =
      ⟨dbEmpty, false⟩ :=
  ⟨by decide, submit_abort_behaviour.1 dbEmpty 1 7 9 rosterW false false (by decide)⟩

/-- Witness for claim C5 at the state reached by one submission from an
empty seed. -/
theorem at_most_one_session_witness :
    Reachable (handleSubmit dbEmpty 1 7 9 rosterW noFaults).db ∧
    uniqueSessions (handleSubmit dbEmpty 1 7 9 rosterW noFaults).db :=
  ⟨Reachable.submit dbEmpty 1 7 9 rosterW noFaults (Reachable.seed [] [] 0),
    at_most_one_session_per_class_date.1 _
      (Reachable.submit dbEmpty 1 7 9 rosterW noFaults (Reachable.seed [] [] 0))⟩

/-- Witness for claim C6: inserting a duplicate (session 5, student 20)
record into dbSess is rejected, and a reachable state satisfies the
record-uniqueness invariant. -/
theorem record_unique_witness :
    ((⟨5, 20, Status.PRESENT⟩ : RecordRow) ∈
      [(⟨5, 20, Status.PRESENT⟩ : RecordRow)]) ∧
    (recordKey ⟨5, 20, Status.PRESENT⟩ ∈ dbSess.attendance_records.map recordKey) ∧
    (insertRecords dbSess [⟨5, 20, Status.PRESENT⟩] false = none) ∧
    (Reachable dbEmpty ∧ uniqueRecords dbEmpty) :=
  ⟨by decide, by decide,
    record_unique_per_session_student.1 dbSess [⟨5, 20, Status.PRESENT⟩] false
      ⟨5, 20, Status.PRESENT⟩ (by decide) (by decide),
    ⟨Reachable.seed [] [] 0,
      record_unique_per_session_student.2 dbEmpty (Reachable.seed [] [] 0)⟩⟩

/-- Witness for claim C7 at a database where student 10 attended two of
three sessions. -/
theorem percentage_matches_spec_witness :
    uniqueRecords dbPerc ∧
    calculate_attendance_percentage dbPerc 10 none none none =
      spec_attendance_percentage dbPerc 10 none none none :=
  ⟨by decide, percentage_matches_spec dbPerc 10 none none none (by decide)⟩

/-- Witness for claim C8 at a one-student enrollment. -/
theorem loadStudents_all_present_witness :
    ((⟨10, "STU001", "John Doe", true⟩ : MarkStudent) ∈ loadStudents dbStud 1) ∧
    (⟨10, "STU001", "John Doe", true⟩ : MarkStudent).present = true :=
  ⟨by decide, loadStudents_all_present dbStud 1 _ (by decide)⟩

/-- Witness for claim C9 at a database whose (class 1, date 7) session
exists, with the records fetch failing. -/
theorem fetch_records_error_keeps_witness :
    (dbSess.attendance_sessions.find? (sessionFor 1 7) =
      some (⟨5, 1, 7, 9⟩ : SessionRow)) ∧
    fetchAttendance dbSess 1 7 stW ⟨false, true⟩ =
      ({ stW with hasSearched := true, loading := false }, true) :=
  ⟨by decide, fetch_records_error_keeps dbSess 1 7 stW ⟨5, 1, 7, 9⟩ (by decide)⟩

end AttendanceSystem
